import Mathlib

/-!
Shallow embedding of the CIS metrics simulator (`src/app.py`).

The Python source keeps bucket populations as machine integers and the
aging rates / percentages as floating-point values; here bucket counts
are `ℤ` and all fractional arithmetic is exact over `ℚ` (Python's
`int(x)` truncation toward zero is `pyint`).  The three closure
strategies become an inductive type.  `simulate_aging` mirrors the
Python function of the same name: it returns the list of week
snapshots, one per week index `0 .. weeks`.  `find_required_closures`
mirrors the linear scan over candidate closure rates
`range(weekly_opened, 200)`.
-/

/-- Python's `int(x)` applied to a real value: truncation toward zero. -/
def pyint (q : ℚ) : ℤ :=
  if q < 0 then -Int.floor (-q) else Int.floor q

/-- The three closure strategies offered by the sidebar selector. -/
inductive ClosurePolicy where
  | OldestFirst
  | NewestFirst
  | Mixed
deriving DecidableEq

/-- Simulation state: the three age-cohort bucket populations. -/
structure Buckets where
  bucket_1 : ℤ
  bucket_2 : ℤ
  bucket_3 : ℤ
deriving DecidableEq

/-- `total = bucket_1 + bucket_2 + bucket_3` (line 99 of `app.py`). -/
def Buckets.total (b : Buckets) : ℤ :=
  b.bucket_1 + b.bucket_2 + b.bucket_3

/-- Aging stage of the weekly transition (lines 120-125):
`int(bucket_1 * rate_1_to_2)` items move from bucket 1 to bucket 2 and
`int(bucket_2 * rate_2_to_3)` items move from bucket 2 to bucket 3. -/
def agingStep (rate_1_to_2 rate_2_to_3 : ℚ) (b : Buckets) : Buckets :=
  let aging_to_bucket_2 := pyint ((b.bucket_1 : ℚ) * rate_1_to_2)
  let aging_to_bucket_3 := pyint ((b.bucket_2 : ℚ) * rate_2_to_3)
  { bucket_1 := b.bucket_1 - aging_to_bucket_2
    bucket_2 := b.bucket_2 + aging_to_bucket_2 - aging_to_bucket_3
    bucket_3 := b.bucket_3 + aging_to_bucket_3 }

/-- Intake stage (line 128): all new complaints start in bucket 1. -/
def intakeStep (weekly_opened : ℤ) (b : Buckets) : Buckets :=
  { b with bucket_1 := b.bucket_1 + weekly_opened }

/-- Mixed-policy allocation for bucket 1 (line 158):
`int(to_close * bucket_1 / total_current)`. -/
def mixed_close_1 (to_close : ℤ) (b : Buckets) : ℤ :=
  pyint (((to_close * b.bucket_1 : ℤ) : ℚ) / ((b.total : ℤ) : ℚ))

/-- Mixed-policy allocation for bucket 2 (line 159):
`int(to_close * bucket_2 / total_current)`. -/
def mixed_close_2 (to_close : ℤ) (b : Buckets) : ℤ :=
  pyint (((to_close * b.bucket_2 : ℤ) : ℚ) / ((b.total : ℤ) : ℚ))

/-- Closure stage of the weekly transition (lines 130-164):
`to_close = min(weekly_closed, bucket_1 + bucket_2 + bucket_3)` items
are removed according to the selected strategy. -/
def closeStep (closure_strategy : ClosurePolicy) (weekly_closed : ℤ) (b : Buckets) : Buckets :=
  let to_close := min weekly_closed (b.bucket_1 + b.bucket_2 + b.bucket_3)
  match closure_strategy with
  | .OldestFirst =>
      let close_from_3 := min to_close b.bucket_3
      let bucket_3 := b.bucket_3 - close_from_3
      let to_close := to_close - close_from_3
      let close_from_2 := min to_close b.bucket_2
      let bucket_2 := b.bucket_2 - close_from_2
      let to_close := to_close - close_from_2
      { bucket_1 := b.bucket_1 - to_close, bucket_2 := bucket_2, bucket_3 := bucket_3 }
  | .NewestFirst =>
      let close_from_1 := min to_close b.bucket_1
      let bucket_1 := b.bucket_1 - close_from_1
      let to_close := to_close - close_from_1
      let close_from_2 := min to_close b.bucket_2
      let bucket_2 := b.bucket_2 - close_from_2
      let to_close := to_close - close_from_2
      { bucket_1 := bucket_1, bucket_2 := bucket_2, bucket_3 := b.bucket_3 - to_close }
  | .Mixed =>
      let total_current := b.bucket_1 + b.bucket_2 + b.bucket_3
      if 0 < total_current then
        let close_1 := mixed_close_1 to_close b
        let close_2 := mixed_close_2 to_close b
        let close_3 := to_close - close_1 - close_2
        { bucket_1 := b.bucket_1 - min close_1 b.bucket_1
          bucket_2 := b.bucket_2 - min close_2 b.bucket_2
          bucket_3 := b.bucket_3 - min close_3 b.bucket_3 }
      else b

/-- Final clamp of the weekly transition (lines 167-169):
`bucket = max(0, bucket)` for each bucket. -/
def clampStep (b : Buckets) : Buckets :=
  { bucket_1 := max 0 b.bucket_1
    bucket_2 := max 0 b.bucket_2
    bucket_3 := max 0 b.bucket_3 }

/-- One full weekly transition (lines 118-169): aging, then intake,
then policy-driven closure, then the clamp to zero. -/
def weekStep (rate_1_to_2 rate_2_to_3 : ℚ) (weekly_opened weekly_closed : ℤ)
    (closure_strategy : ClosurePolicy) (b : Buckets) : Buckets :=
  clampStep (closeStep closure_strategy weekly_closed
    (intakeStep weekly_opened (agingStep rate_1_to_2 rate_2_to_3 b)))

/-- Bucket state at the start of week `n`: the initial state advanced
by `n` weekly transitions. -/
def stateAt (rate_1_to_2 rate_2_to_3 : ℚ) (weekly_opened weekly_closed : ℤ)
    (closure_strategy : ClosurePolicy) (init : Buckets) : ℕ → Buckets
  | 0 => init
  | n + 1 => weekStep rate_1_to_2 rate_2_to_3 weekly_opened weekly_closed closure_strategy
      (stateAt rate_1_to_2 rate_2_to_3 weekly_opened weekly_closed closure_strategy init n)

/-- One row of the simulation output (lines 108-116). -/
structure Snapshot where
  week : ℕ
  total_open : ℤ
  bucket_1 : ℤ
  bucket_2 : ℤ
  bucket_3 : ℤ
  pct_meeting_target_1 : ℚ
  pct_meeting_target_2 : ℚ
deriving DecidableEq

/-- `(bucket_1 / total) * 100`, or `100` when the total is empty
(lines 101-106). -/
def pct_target_1 (b : Buckets) : ℚ :=
  if 0 < b.total then ((b.bucket_1 : ℤ) : ℚ) / ((b.total : ℤ) : ℚ) * 100 else 100

/-- `((bucket_1 + bucket_2) / total) * 100`, or `100` when the total is
empty (lines 101-106). -/
def pct_target_2 (b : Buckets) : ℚ :=
  if 0 < b.total then ((b.bucket_1 + b.bucket_2 : ℤ) : ℚ) / ((b.total : ℤ) : ℚ) * 100 else 100

/-- The snapshot recorded for week `week` from bucket state `b`
(lines 99-116). -/
def mkSnapshot (week : ℕ) (b : Buckets) : Snapshot :=
  { week := week
    total_open := b.total
    bucket_1 := b.bucket_1
    bucket_2 := b.bucket_2
    bucket_3 := b.bucket_3
    pct_meeting_target_1 := pct_target_1 b
    pct_meeting_target_2 := pct_target_2 b }

/-- Default row used with `List.getD` / `List.getLastD`; never reached
because the simulator's output is nonempty. -/
def emptySnapshot : Snapshot :=
  { week := 0, total_open := 0, bucket_1 := 0, bucket_2 := 0, bucket_3 := 0
    pct_meeting_target_1 := 100, pct_meeting_target_2 := 100 }

/-- `simulate_aging` (lines 76-171): record a snapshot for each week
`0 .. weeks`, advancing the bucket state between snapshots.  The
`total_open` argument is accepted, as in the source, but the recorded
totals are recomputed from the buckets. -/
def simulate_aging (total_open bucket_1_init bucket_2_init bucket_3_init : ℤ)
    (weekly_opened weekly_closed : ℤ) (closure_strategy : ClosurePolicy) (weeks : ℕ)
    (target_1_days target_2_days : ℤ) : List Snapshot :=
  let rate_1_to_2 : ℚ := min 1 (7 / (target_1_days : ℚ))
  let rate_2_to_3 : ℚ := min 1 (7 / ((target_2_days - target_1_days : ℤ) : ℚ))
  (List.range (weeks + 1)).map fun week =>
    mkSnapshot week (stateAt rate_1_to_2 rate_2_to_3 weekly_opened weekly_closed
      closure_strategy
      { bucket_1 := bucket_1_init, bucket_2 := bucket_2_init, bucket_3 := bucket_3_init }
      week)

/-- First integer in `[lo, lo + n)` on which `p` holds, scanning
upward, or `none` when there is none. -/
def findFirstAux (p : ℤ → Bool) (lo : ℤ) : ℕ → Option ℤ
  | 0 => none
  | n + 1 => if p lo then some lo else findFirstAux p (lo + 1) n

/-- `test_df.iloc[-1]['pct_meeting_target_1']` (line 293): the final
snapshot's first-target percentage of an OldestFirst run with the
candidate closure rate. -/
def search_final_pct (total_open bucket_1_count bucket_2_count bucket_3_count : ℤ)
    (weekly_opened : ℤ) (target_weeks : ℕ) (target_1_days target_2_days : ℤ)
    (closures : ℤ) : ℚ :=
  ((simulate_aging total_open bucket_1_count bucket_2_count bucket_3_count
      weekly_opened closures ClosurePolicy.OldestFirst target_weeks
      target_1_days target_2_days).getLastD emptySnapshot).pct_meeting_target_1

/-- `find_required_closures` (lines 287-295): scan candidate closure
rates `closures` over `range(weekly_opened, 200)` and return the first
whose OldestFirst run ends at or above `target_pct`. -/
def find_required_closures (total_open bucket_1_count bucket_2_count bucket_3_count : ℤ)
    (weekly_opened : ℤ) (target_weeks : ℕ) (target_pct : ℚ)
    (target_1_days target_2_days : ℤ) : Option ℤ :=
  findFirstAux
    (fun closures => decide (target_pct ≤ search_final_pct total_open bucket_1_count
      bucket_2_count bucket_3_count weekly_opened target_weeks
      target_1_days target_2_days closures))
    weekly_opened (200 - weekly_opened).toNat

/-! ### Basic facts about `pyint` and the weekly stages -/

lemma pyint_eq_floor {q : ℚ} (h : 0 ≤ q) : pyint q = Int.floor q := by
  simp [pyint, not_lt.mpr h]

lemma pyint_nonneg {q : ℚ} (h : 0 ≤ q) : 0 ≤ pyint q := by
  rw [pyint_eq_floor h]
  exact Int.floor_nonneg.mpr h

lemma pyint_mul_le_self {b : ℤ} {r : ℚ} (hb : 0 ≤ b) (hr0 : 0 ≤ r) (hr1 : r ≤ 1) :
    pyint ((b : ℚ) * r) ≤ b := by
  have hq : (0 : ℚ) ≤ (b : ℚ) * r := mul_nonneg (by exact_mod_cast hb) hr0
  rw [pyint_eq_floor hq]
  calc Int.floor ((b : ℚ) * r) ≤ Int.floor ((b : ℚ)) := by
        apply Int.floor_le_floor
        calc (b : ℚ) * r ≤ (b : ℚ) * 1 :=
              mul_le_mul_of_nonneg_left hr1 (by exact_mod_cast hb)
          _ = (b : ℚ) := mul_one _
    _ = b := Int.floor_intCast b

lemma floor_mul_shift {a b : ℤ} {r : ℚ} (hr : r ≤ 1) (hab : b ≤ a) :
    Int.floor ((a : ℚ) * r) ≤ Int.floor ((b : ℚ) * r) + (a - b) := by
  have key : (a : ℚ) * r ≤ (b : ℚ) * r + ((a - b : ℤ) : ℚ) := by
    have hd : (0 : ℚ) ≤ ((a - b : ℤ) : ℚ) := by exact_mod_cast Int.sub_nonneg.mpr hab
    have : ((a - b : ℤ) : ℚ) * r ≤ ((a - b : ℤ) : ℚ) := by
      calc ((a - b : ℤ) : ℚ) * r ≤ ((a - b : ℤ) : ℚ) * 1 := mul_le_mul_of_nonneg_left hr hd
        _ = ((a - b : ℤ) : ℚ) := mul_one _
    calc (a : ℚ) * r = (b : ℚ) * r + ((a - b : ℤ) : ℚ) * r := by push_cast; ring
      _ ≤ (b : ℚ) * r + ((a - b : ℤ) : ℚ) := by linarith
  calc Int.floor ((a : ℚ) * r) ≤ Int.floor ((b : ℚ) * r + ((a - b : ℤ) : ℚ)) :=
        Int.floor_le_floor key
    _ = Int.floor ((b : ℚ) * r) + (a - b) := Int.floor_add_int _ _

lemma agingStep_spec {r12 r23 : ℚ} (h12a : 0 ≤ r12) (h12b : r12 ≤ 1)
    (h23a : 0 ≤ r23) (h23b : r23 ≤ 1) (b : Buckets)
    (h1 : 0 ≤ b.bucket_1) (h2 : 0 ≤ b.bucket_2) (h3 : 0 ≤ b.bucket_3) :
    0 ≤ (agingStep r12 r23 b).bucket_1 ∧ 0 ≤ (agingStep r12 r23 b).bucket_2 ∧
    0 ≤ (agingStep r12 r23 b).bucket_3 ∧ (agingStep r12 r23 b).total = b.total := by
  obtain ⟨x, y, z⟩ := b
  simp only [agingStep, Buckets.total] at *
  have hx2 : pyint ((x : ℚ) * r12) ≤ x := pyint_mul_le_self h1 h12a h12b
  have hx0 : 0 ≤ pyint ((x : ℚ) * r12) :=
    pyint_nonneg (mul_nonneg (by exact_mod_cast h1) h12a)
  have hy2 : pyint ((y : ℚ) * r23) ≤ y := pyint_mul_le_self h2 h23a h23b
  have hy0 : 0 ≤ pyint ((y : ℚ) * r23) :=
    pyint_nonneg (mul_nonneg (by exact_mod_cast h2) h23a)
  refine ⟨by omega, by omega, by omega, by omega⟩

lemma agingStep_bucket_1_mono {r12 r23 : ℚ} (h12a : 0 ≤ r12) (h12b : r12 ≤ 1)
    {a b : Buckets} (ha : 0 ≤ a.bucket_1) (hab : a.bucket_1 ≤ b.bucket_1) :
    (agingStep r12 r23 a).bucket_1 ≤ (agingStep r12 r23 b).bucket_1 := by
  obtain ⟨x, y, z⟩ := a
  obtain ⟨u, v, w⟩ := b
  simp only [agingStep] at *
  have hxq : (0 : ℚ) ≤ (x : ℚ) * r12 := mul_nonneg (by exact_mod_cast ha) h12a
  have huq : (0 : ℚ) ≤ (u : ℚ) * r12 :=
    mul_nonneg (by exact_mod_cast (le_trans ha hab)) h12a
  rw [pyint_eq_floor hxq, pyint_eq_floor huq]
  have := floor_mul_shift (a := u) (b := x) h12b hab
  omega

lemma closeStep_oldest_spec (wc : ℤ) (b : Buckets)
    (h1 : 0 ≤ b.bucket_1) (h2 : 0 ≤ b.bucket_2) (h3 : 0 ≤ b.bucket_3) :
    0 ≤ (closeStep .OldestFirst wc b).bucket_1 ∧ 0 ≤ (closeStep .OldestFirst wc b).bucket_2 ∧
    0 ≤ (closeStep .OldestFirst wc b).bucket_3 ∧
    (closeStep .OldestFirst wc b).total = b.total - min wc b.total ∧
    (closeStep .OldestFirst wc b).bucket_1 = min b.bucket_1 (b.total - min wc b.total) := by
  obtain ⟨x, y, z⟩ := b
  simp only [closeStep, Buckets.total] at *
  omega

lemma closeStep_newest_spec (wc : ℤ) (b : Buckets)
    (h1 : 0 ≤ b.bucket_1) (h2 : 0 ≤ b.bucket_2) (h3 : 0 ≤ b.bucket_3) :
    0 ≤ (closeStep .NewestFirst wc b).bucket_1 ∧ 0 ≤ (closeStep .NewestFirst wc b).bucket_2 ∧
    0 ≤ (closeStep .NewestFirst wc b).bucket_3 ∧
    (closeStep .NewestFirst wc b).total = b.total - min wc b.total ∧
    (closeStep .NewestFirst wc b).bucket_1 = max 0 (b.bucket_1 - min wc b.total) := by
  obtain ⟨x, y, z⟩ := b
  simp only [closeStep, Buckets.total] at *
  omega

lemma clampStep_nonneg (b : Buckets) :
    0 ≤ (clampStep b).bucket_1 ∧ 0 ≤ (clampStep b).bucket_2 ∧ 0 ≤ (clampStep b).bucket_3 := by
  obtain ⟨x, y, z⟩ := b
  simp only [clampStep]
  omega

lemma clampStep_eq_self {b : Buckets}
    (h1 : 0 ≤ b.bucket_1) (h2 : 0 ≤ b.bucket_2) (h3 : 0 ≤ b.bucket_3) :
    clampStep b = b := by
  obtain ⟨x, y, z⟩ := b
  simp only [clampStep, Buckets.mk.injEq] at *
  refine ⟨?_, ?_, ?_⟩ <;> omega

lemma mixed_close_1_nonneg {tc : ℤ} {b : Buckets} (htc : 0 ≤ tc)
    (h1 : 0 ≤ b.bucket_1) (hT : 0 ≤ b.total) : 0 ≤ mixed_close_1 tc b := by
  apply pyint_nonneg
  apply div_nonneg
  · exact_mod_cast mul_nonneg htc h1
  · exact_mod_cast hT

lemma mixed_close_2_nonneg {tc : ℤ} {b : Buckets} (htc : 0 ≤ tc)
    (h2 : 0 ≤ b.bucket_2) (hT : 0 ≤ b.total) : 0 ≤ mixed_close_2 tc b := by
  apply pyint_nonneg
  apply div_nonneg
  · exact_mod_cast mul_nonneg htc h2
  · exact_mod_cast hT

lemma mixed_close_sum_le {tc : ℤ} {b : Buckets} (htc : 0 ≤ tc)
    (h1 : 0 ≤ b.bucket_1) (h2 : 0 ≤ b.bucket_2) (h3 : 0 ≤ b.bucket_3)
    (hT : 0 < b.total) : mixed_close_1 tc b + mixed_close_2 tc b ≤ tc := by
  have hTQ : (0 : ℚ) < ((b.total : ℤ) : ℚ) := by exact_mod_cast hT
  have hq1 : (0 : ℚ) ≤ ((tc * b.bucket_1 : ℤ) : ℚ) / ((b.total : ℤ) : ℚ) :=
    div_nonneg (by exact_mod_cast mul_nonneg htc h1) (le_of_lt hTQ)
  have hq2 : (0 : ℚ) ≤ ((tc * b.bucket_2 : ℤ) : ℚ) / ((b.total : ℤ) : ℚ) :=
    div_nonneg (by exact_mod_cast mul_nonneg htc h2) (le_of_lt hTQ)
  have key : ((mixed_close_1 tc b + mixed_close_2 tc b : ℤ) : ℚ) ≤ ((tc : ℤ) : ℚ) := by
    push_cast
    have e1 : ((mixed_close_1 tc b : ℤ) : ℚ) ≤ ((tc * b.bucket_1 : ℤ) : ℚ) / ((b.total : ℤ) : ℚ) := by
      rw [mixed_close_1, pyint_eq_floor hq1]
      exact Int.floor_le _
    have e2 : ((mixed_close_2 tc b : ℤ) : ℚ) ≤ ((tc * b.bucket_2 : ℤ) : ℚ) / ((b.total : ℤ) : ℚ) := by
      rw [mixed_close_2, pyint_eq_floor hq2]
      exact Int.floor_le _
    have esum : ((tc * b.bucket_1 : ℤ) : ℚ) / ((b.total : ℤ) : ℚ)
        + ((tc * b.bucket_2 : ℤ) : ℚ) / ((b.total : ℤ) : ℚ) ≤ ((tc : ℤ) : ℚ) := by
      rw [div_add_div_same, div_le_iff₀ hTQ]
      have hb12 : (b.bucket_1 + b.bucket_2 : ℤ) ≤ b.total := by
        simp only [Buckets.total]
        omega
      have : ((tc * b.bucket_1 + tc * b.bucket_2 : ℤ) : ℚ) ≤ ((tc * b.total : ℤ) : ℚ) := by
        have : tc * b.bucket_1 + tc * b.bucket_2 ≤ tc * b.total := by
          rw [← mul_add]
          exact mul_le_mul_of_nonneg_left hb12 htc
        exact_mod_cast this
      push_cast at this ⊢
      linarith
    push_cast at e1 e2 esum
    linarith
  exact_mod_cast key

lemma closeStep_mixed_spec (wc : ℤ) (b : Buckets)
    (h1 : 0 ≤ b.bucket_1) (h2 : 0 ≤ b.bucket_2) (h3 : 0 ≤ b.bucket_3) (hwc : 0 ≤ wc) :
    0 ≤ (closeStep .Mixed wc b).bucket_1 ∧ 0 ≤ (closeStep .Mixed wc b).bucket_2 ∧
    0 ≤ (closeStep .Mixed wc b).bucket_3 ∧
    b.total - min wc b.total ≤ (closeStep .Mixed wc b).total ∧
    (closeStep .Mixed wc b).total ≤ b.total := by
  have hT0 : 0 ≤ b.total := by simp only [Buckets.total]; omega
  by_cases hT : 0 < b.bucket_1 + b.bucket_2 + b.bucket_3
  · have htc0 : 0 ≤ min wc (b.bucket_1 + b.bucket_2 + b.bucket_3) := le_min hwc (by omega)
    have htcT : min wc (b.bucket_1 + b.bucket_2 + b.bucket_3)
        ≤ b.bucket_1 + b.bucket_2 + b.bucket_3 := min_le_right _ _
    have hc1 := mixed_close_1_nonneg (b := b) htc0 h1 hT0
    have hc2 := mixed_close_2_nonneg (b := b) htc0 h2 hT0
    have hsum := mixed_close_sum_le (b := b) htc0 h1 h2 h3 (by simpa [Buckets.total] using hT)
    obtain ⟨x, y, z⟩ := b
    simp only [closeStep, Buckets.total, if_pos hT] at *
    omega
  · obtain ⟨x, y, z⟩ := b
    simp only [closeStep, Buckets.total, if_neg hT] at *
    omega

lemma intakeStep_spec (wo : ℤ) (b : Buckets) :
    (intakeStep wo b).bucket_1 = b.bucket_1 + wo ∧ (intakeStep wo b).bucket_2 = b.bucket_2 ∧
    (intakeStep wo b).bucket_3 = b.bucket_3 ∧ (intakeStep wo b).total = b.total + wo := by
  obtain ⟨x, y, z⟩ := b
  simp only [intakeStep, Buckets.total]
  refine ⟨trivial, trivial, trivial, by omega⟩

lemma stateAt_nonneg (r12 r23 : ℚ) (wo wc : ℤ) (pol : ClosurePolicy) (init : Buckets)
    (h1 : 0 ≤ init.bucket_1) (h2 : 0 ≤ init.bucket_2) (h3 : 0 ≤ init.bucket_3) (n : ℕ) :
    0 ≤ (stateAt r12 r23 wo wc pol init n).bucket_1 ∧
    0 ≤ (stateAt r12 r23 wo wc pol init n).bucket_2 ∧
    0 ≤ (stateAt r12 r23 wo wc pol init n).bucket_3 := by
  induction n with
  | zero => exact ⟨h1, h2, h3⟩
  | succ n _ => exact clampStep_nonneg _

lemma weekStep_total_ON {r12 r23 : ℚ} (h12a : 0 ≤ r12) (h12b : r12 ≤ 1)
    (h23a : 0 ≤ r23) (h23b : r23 ≤ 1) {wo wc : ℤ} (hwo : 0 ≤ wo)
    {pol : ClosurePolicy} (hpol : pol = .OldestFirst ∨ pol = .NewestFirst) (b : Buckets)
    (h1 : 0 ≤ b.bucket_1) (h2 : 0 ≤ b.bucket_2) (h3 : 0 ≤ b.bucket_3) :
    (weekStep r12 r23 wo wc pol b).total = b.total + wo - min wc (b.total + wo) := by
  obtain ⟨ha1, ha2, ha3, haT⟩ := agingStep_spec h12a h12b h23a h23b b h1 h2 h3
  obtain ⟨hi1, hi2, hi3, hiT⟩ := intakeStep_spec wo (agingStep r12 r23 b)
  set i := intakeStep wo (agingStep r12 r23 b) with hi
  have hi1n : 0 ≤ i.bucket_1 := by omega
  have hi2n : 0 ≤ i.bucket_2 := by omega
  have hi3n : 0 ≤ i.bucket_3 := by omega
  rcases hpol with hp | hp
  · subst hp
    obtain ⟨hc1, hc2, hc3, hcT, _⟩ := closeStep_oldest_spec wc i hi1n hi2n hi3n
    rw [weekStep, ← hi, clampStep_eq_self hc1 hc2 hc3, hcT, hiT, haT]
  · subst hp
    obtain ⟨hc1, hc2, hc3, hcT, _⟩ := closeStep_newest_spec wc i hi1n hi2n hi3n
    rw [weekStep, ← hi, clampStep_eq_self hc1 hc2 hc3, hcT, hiT, haT]

lemma stateAt_total_ON {r12 r23 : ℚ} (h12a : 0 ≤ r12) (h12b : r12 ≤ 1)
    (h23a : 0 ≤ r23) (h23b : r23 ≤ 1) {wo wc : ℤ} (hwo : 0 ≤ wo)
    {pol : ClosurePolicy} (hpol : pol = .OldestFirst ∨ pol = .NewestFirst) (init : Buckets)
    (h1 : 0 ≤ init.bucket_1) (h2 : 0 ≤ init.bucket_2) (h3 : 0 ≤ init.bucket_3) (n : ℕ) :
    (stateAt r12 r23 wo wc pol init (n + 1)).total =
      (stateAt r12 r23 wo wc pol init n).total + wo -
        min wc ((stateAt r12 r23 wo wc pol init n).total + wo) := by
  obtain ⟨hs1, hs2, hs3⟩ := stateAt_nonneg r12 r23 wo wc pol init h1 h2 h3 n
  exact weekStep_total_ON h12a h12b h23a h23b hwo hpol _ hs1 hs2 hs3

lemma divergence_invariant {r12 r23 : ℚ} (h12a : 0 ≤ r12) (h12b : r12 ≤ 1)
    (h23a : 0 ≤ r23) (h23b : r23 ≤ 1) {wo wc : ℤ} (hwo : 0 ≤ wo) (hwc : 0 ≤ wc)
    (init : Buckets)
    (h1 : 0 ≤ init.bucket_1) (h2 : 0 ≤ init.bucket_2) (h3 : 0 ≤ init.bucket_3) (n : ℕ) :
    (stateAt r12 r23 wo wc .NewestFirst init n).total =
      (stateAt r12 r23 wo wc .OldestFirst init n).total ∧
    (stateAt r12 r23 wo wc .NewestFirst init n).bucket_1 ≤
      (stateAt r12 r23 wo wc .OldestFirst init n).bucket_1 := by
  induction n with
  | zero => exact ⟨rfl, le_refl _⟩
  | succ n ih =>
    obtain ⟨ihT, ih1⟩ := ih
    obtain ⟨hO1, hO2, hO3⟩ :=
      stateAt_nonneg r12 r23 wo wc .OldestFirst init h1 h2 h3 n
    obtain ⟨hN1, hN2, hN3⟩ :=
      stateAt_nonneg r12 r23 wo wc .NewestFirst init h1 h2 h3 n
    set O := stateAt r12 r23 wo wc .OldestFirst init n with hOdef
    set N := stateAt r12 r23 wo wc .NewestFirst init n with hNdef
    obtain ⟨haO1, haO2, haO3, haOT⟩ := agingStep_spec h12a h12b h23a h23b O hO1 hO2 hO3
    obtain ⟨haN1, haN2, haN3, haNT⟩ := agingStep_spec h12a h12b h23a h23b N hN1 hN2 hN3
    have hmono : (agingStep r12 r23 N).bucket_1 ≤ (agingStep r12 r23 O).bucket_1 :=
      agingStep_bucket_1_mono h12a h12b hN1 ih1
    obtain ⟨hiO1, hiO2, hiO3, hiOT⟩ := intakeStep_spec wo (agingStep r12 r23 O)
    obtain ⟨hiN1, hiN2, hiN3, hiNT⟩ := intakeStep_spec wo (agingStep r12 r23 N)
    set iO := intakeStep wo (agingStep r12 r23 O) with hiOdef
    set iN := intakeStep wo (agingStep r12 r23 N) with hiNdef
    have hiO1n : 0 ≤ iO.bucket_1 := by omega
    have hiO2n : 0 ≤ iO.bucket_2 := by omega
    have hiO3n : 0 ≤ iO.bucket_3 := by omega
    have hiN1n : 0 ≤ iN.bucket_1 := by omega
    have hiN2n : 0 ≤ iN.bucket_2 := by omega
    have hiN3n : 0 ≤ iN.bucket_3 := by omega
    obtain ⟨hcO1, hcO2, hcO3, hcOT, hcO1eq⟩ := closeStep_oldest_spec wc iO hiO1n hiO2n hiO3n
    obtain ⟨hcN1, hcN2, hcN3, hcNT, hcN1eq⟩ := closeStep_newest_spec wc iN hiN1n hiN2n hiN3n
    have hTeq : iN.total = iO.total := by
      rw [hiOT, hiNT, haOT, haNT, ihT]
    have hstepO : stateAt r12 r23 wo wc .OldestFirst init (n + 1) =
        clampStep (closeStep .OldestFirst wc iO) := by
      rw [stateAt, weekStep, ← hOdef, ← hiOdef]
    have hstepN : stateAt r12 r23 wo wc .NewestFirst init (n + 1) =
        clampStep (closeStep .NewestFirst wc iN) := by
      rw [stateAt, weekStep, ← hNdef, ← hiNdef]
    have hb1 : iN.bucket_1 ≤ iO.bucket_1 := by omega
    have hb1T : iN.bucket_1 ≤ iN.total := by
      have : iN.total = iN.bucket_1 + iN.bucket_2 + iN.bucket_3 := by
        simp only [Buckets.total]
      omega
    have htc0 : 0 ≤ min wc iO.total := by
      have h0 : 0 ≤ iO.total := by
        have : iO.total = iO.bucket_1 + iO.bucket_2 + iO.bucket_3 := by
          simp only [Buckets.total]
        omega
      exact le_min hwc h0
    have htcT : min wc iO.total ≤ iO.total := min_le_right _ _
    constructor
    · rw [hstepO, hstepN, clampStep_eq_self hcO1 hcO2 hcO3,
        clampStep_eq_self hcN1 hcN2 hcN3, hcOT, hcNT, hTeq]
    · rw [hstepO, hstepN, clampStep_eq_self hcO1 hcO2 hcO3,
        clampStep_eq_self hcN1 hcN2 hcN3, hcO1eq, hcN1eq, hTeq]
      omega

/-! ### Bridging the snapshot list to the week-indexed state -/

lemma simulate_aging_getD (total_open b1i b2i b3i wo wc : ℤ) (pol : ClosurePolicy)
    (weeks : ℕ) (t1 t2 : ℤ) {w : ℕ} (hw : w < weeks + 1) :
    (simulate_aging total_open b1i b2i b3i wo wc pol weeks t1 t2).getD w emptySnapshot =
      mkSnapshot w (stateAt (min 1 (7 / (t1 : ℚ))) (min 1 (7 / ((t2 - t1 : ℤ) : ℚ))) wo wc pol
        { bucket_1 := b1i, bucket_2 := b2i, bucket_3 := b3i } w) := by
  simp only [simulate_aging, List.getD_eq_getElem?_getD, List.getElem?_map,
    List.getElem?_range hw, Option.map_some', Option.getD_some]

lemma simulate_aging_length (total_open b1i b2i b3i wo wc : ℤ) (pol : ClosurePolicy)
    (weeks : ℕ) (t1 t2 : ℤ) :
    (simulate_aging total_open b1i b2i b3i wo wc pol weeks t1 t2).length = weeks + 1 := by
  simp [simulate_aging]

lemma simulate_aging_mem (total_open b1i b2i b3i wo wc : ℤ) (pol : ClosurePolicy)
    (weeks : ℕ) (t1 t2 : ℤ) {s : Snapshot}
    (hs : s ∈ simulate_aging total_open b1i b2i b3i wo wc pol weeks t1 t2) :
    ∃ w, w < weeks + 1 ∧
      s = mkSnapshot w (stateAt (min 1 (7 / (t1 : ℚ))) (min 1 (7 / ((t2 - t1 : ℤ) : ℚ)))
        wo wc pol { bucket_1 := b1i, bucket_2 := b2i, bucket_3 := b3i } w) := by
  simp only [simulate_aging, List.mem_map, List.mem_range] at hs
  obtain ⟨w, hw, hmk⟩ := hs
  exact ⟨w, hw, hmk.symm⟩

lemma search_final_pct_eq (total_open b1c b2c b3c wo : ℤ) (tw : ℕ) (t1 t2 c : ℤ) :
    search_final_pct total_open b1c b2c b3c wo tw t1 t2 c =
      pct_target_1 (stateAt (min 1 (7 / (t1 : ℚ))) (min 1 (7 / ((t2 - t1 : ℤ) : ℚ)))
        wo c .OldestFirst { bucket_1 := b1c, bucket_2 := b2c, bucket_3 := b3c } tw) := by
  simp only [search_final_pct, simulate_aging]
  rw [List.range_succ, List.map_append]
  simp [List.getLastD_concat, mkSnapshot]

/-! ### Rate bounds from valid thresholds -/

lemma rate_bounds_1 {t1 : ℤ} (ht1 : 0 < t1) :
    0 ≤ min 1 (7 / (t1 : ℚ)) ∧ min 1 (7 / (t1 : ℚ)) ≤ 1 := by
  constructor
  · apply le_min
    · norm_num
    · apply div_nonneg (by norm_num)
      exact_mod_cast le_of_lt ht1
  · exact min_le_left _ _

lemma rate_bounds_2 {t1 t2 : ℤ} (ht12 : t1 < t2) :
    0 ≤ min 1 (7 / ((t2 - t1 : ℤ) : ℚ)) ∧ min 1 (7 / ((t2 - t1 : ℤ) : ℚ)) ≤ 1 := by
  constructor
  · apply le_min
    · norm_num
    · apply div_nonneg (by norm_num)
      exact_mod_cast le_of_lt (Int.sub_pos.mpr ht12)
  · exact min_le_left _ _

lemma pct_target_bounds (b : Buckets)
    (h1 : 0 ≤ b.bucket_1) (h2 : 0 ≤ b.bucket_2) (h3 : 0 ≤ b.bucket_3) :
    (0 < b.total → 0 ≤ pct_target_1 b ∧ pct_target_1 b ≤ pct_target_2 b ∧
      pct_target_2 b ≤ 100) ∧
    (b.total = 0 → pct_target_1 b = 100 ∧ pct_target_2 b = 100) := by
  constructor
  · intro hT
    have hTQ : (0 : ℚ) < ((b.total : ℤ) : ℚ) := by exact_mod_cast hT
    rw [pct_target_1, pct_target_2, if_pos hT, if_pos hT]
    refine ⟨?_, ?_, ?_⟩
    · apply mul_nonneg _ (by norm_num)
      exact div_nonneg (by exact_mod_cast h1) (le_of_lt hTQ)
    · apply mul_le_mul_of_nonneg_right _ (by norm_num : (0 : ℚ) ≤ 100)
      apply div_le_div_of_nonneg_right ?_ (le_of_lt hTQ)
      exact_mod_cast Int.le_add_of_nonneg_right h2
    · have hnum : ((b.bucket_1 + b.bucket_2 : ℤ) : ℚ) ≤ ((b.total : ℤ) : ℚ) := by
        have : b.bucket_1 + b.bucket_2 ≤ b.total := by
          simp only [Buckets.total]; omega
        exact_mod_cast this
      calc ((b.bucket_1 + b.bucket_2 : ℤ) : ℚ) / ((b.total : ℤ) : ℚ) * 100
          ≤ 1 * 100 := by
            apply mul_le_mul_of_nonneg_right _ (by norm_num : (0 : ℚ) ≤ 100)
            exact (div_le_one hTQ).mpr hnum
        _ = 100 := one_mul _
  · intro hT
    rw [pct_target_1, pct_target_2, hT]
    norm_num

lemma pct_target_1_mono {a b : Buckets} (hT : a.total = b.total)
    (h1 : a.bucket_1 ≤ b.bucket_1) : pct_target_1 a ≤ pct_target_1 b := by
  rw [pct_target_1, pct_target_1, hT]
  by_cases hpos : 0 < b.total
  · rw [if_pos hpos, if_pos hpos]
    have hTQ : (0 : ℚ) < ((b.total : ℤ) : ℚ) := by exact_mod_cast hpos
    apply mul_le_mul_of_nonneg_right _ (by norm_num : (0 : ℚ) ≤ 100)
    exact div_le_div_of_nonneg_right (by exact_mod_cast h1) (le_of_lt hTQ)
  · rw [if_neg hpos, if_neg hpos]

/-- C3: for every configuration with non-negative initial buckets,
non-negative weekly flow rates and valid thresholds, every recorded
snapshot under every closure policy has all three bucket values ≥ 0. -/
theorem c3_bucket_nonneg (total_open b1i b2i b3i wo wc t1 t2 : ℤ) (pol : ClosurePolicy)
    (weeks : ℕ) (h1 : 0 ≤ b1i) (h2 : 0 ≤ b2i) (h3 : 0 ≤ b3i)
    (hwo : 0 ≤ wo) (hwc : 0 ≤ wc) (ht1 : 0 < t1) (ht12 : t1 < t2) {s : Snapshot}
    (hs : s ∈ simulate_aging total_open b1i b2i b3i wo wc pol weeks t1 t2) :
    0 ≤ s.bucket_1 ∧ 0 ≤ s.bucket_2 ∧ 0 ≤ s.bucket_3 := by
  obtain ⟨w, hw, rfl⟩ := simulate_aging_mem total_open b1i b2i b3i wo wc pol weeks t1 t2 hs
  have hnn := stateAt_nonneg (min 1 (7 / (t1 : ℚ))) (min 1 (7 / ((t2 - t1 : ℤ) : ℚ)))
    wo wc pol { bucket_1 := b1i, bucket_2 := b2i, bucket_3 := b3i } h1 h2 h3 w
  simpa [mkSnapshot] using hnn

/-- C4: every recorded snapshot with a positive total satisfies
`0 ≤ pct_meeting_target_1 ≤ pct_meeting_target_2 ≤ 100`, and every
snapshot with total 0 reports both percentages as 100. -/
theorem c4_pct_bounds (total_open b1i b2i b3i wo wc t1 t2 : ℤ) (pol : ClosurePolicy)
    (weeks : ℕ) (h1 : 0 ≤ b1i) (h2 : 0 ≤ b2i) (h3 : 0 ≤ b3i)
    (hwo : 0 ≤ wo) (hwc : 0 ≤ wc) (ht1 : 0 < t1) (ht12 : t1 < t2) {s : Snapshot}
    (hs : s ∈ simulate_aging total_open b1i b2i b3i wo wc pol weeks t1 t2) :
    (0 < s.total_open → 0 ≤ s.pct_meeting_target_1 ∧
      s.pct_meeting_target_1 ≤ s.pct_meeting_target_2 ∧ s.pct_meeting_target_2 ≤ 100) ∧
    (s.total_open = 0 → s.pct_meeting_target_1 = 100 ∧ s.pct_meeting_target_2 = 100) := by
  obtain ⟨w, hw, rfl⟩ := simulate_aging_mem total_open b1i b2i b3i wo wc pol weeks t1 t2 hs
  have hnn := stateAt_nonneg (min 1 (7 / (t1 : ℚ))) (min 1 (7 / ((t2 - t1 : ℤ) : ℚ)))
    wo wc pol { bucket_1 := b1i, bucket_2 := b2i, bucket_3 := b3i } h1 h2 h3 w
  have hb := pct_target_bounds _ hnn.1 hnn.2.1 hnn.2.2
  simpa [mkSnapshot] using hb

/-- C2: for OldestFirst/NewestFirst configurations and every week
`w < weeks`, the recorded total at week `w+1` equals the total at week
`w` plus `weekly_opened` minus
`min(weekly_closed, total at w + weekly_opened)`. -/
theorem c2_conservation (total_open b1i b2i b3i wo wc t1 t2 : ℤ) (pol : ClosurePolicy)
    (weeks w : ℕ) (h1 : 0 ≤ b1i) (h2 : 0 ≤ b2i) (h3 : 0 ≤ b3i)
    (hwo : 0 ≤ wo) (hwc : 0 ≤ wc) (ht1 : 0 < t1) (ht12 : t1 < t2)
    (hpol : pol = ClosurePolicy.OldestFirst ∨ pol = ClosurePolicy.NewestFirst)
    (hw : w < weeks) :
    ((simulate_aging total_open b1i b2i b3i wo wc pol weeks t1 t2).getD (w + 1)
        emptySnapshot).total_open =
      ((simulate_aging total_open b1i b2i b3i wo wc pol weeks t1 t2).getD w
          emptySnapshot).total_open + wo -
        min wc (((simulate_aging total_open b1i b2i b3i wo wc pol weeks t1 t2).getD w
          emptySnapshot).total_open + wo) := by
  rw [simulate_aging_getD total_open b1i b2i b3i wo wc pol weeks t1 t2 (by omega),
    simulate_aging_getD total_open b1i b2i b3i wo wc pol weeks t1 t2 (by omega)]
  simp only [mkSnapshot]
  exact stateAt_total_ON (rate_bounds_1 ht1).1 (rate_bounds_1 ht1).2
    (rate_bounds_2 ht12).1 (rate_bounds_2 ht12).2 hwo hpol _ h1 h2 h3 w

/-- C5: with all other inputs fixed, the OldestFirst run's
`pct_meeting_target_1` at every recorded week is at least the
NewestFirst run's value at the same week. -/
theorem c5_policy_divergence (total_open b1i b2i b3i wo wc t1 t2 : ℤ) (weeks w : ℕ)
    (h1 : 0 ≤ b1i) (h2 : 0 ≤ b2i) (h3 : 0 ≤ b3i)
    (hwo : 0 ≤ wo) (hwc : 0 ≤ wc) (ht1 : 0 < t1) (ht12 : t1 < t2) (hw : w ≤ weeks) :
    ((simulate_aging total_open b1i b2i b3i wo wc ClosurePolicy.NewestFirst weeks t1 t2).getD w
        emptySnapshot).pct_meeting_target_1 ≤
      ((simulate_aging total_open b1i b2i b3i wo wc ClosurePolicy.OldestFirst weeks t1 t2).getD w
        emptySnapshot).pct_meeting_target_1 := by
  rw [simulate_aging_getD total_open b1i b2i b3i wo wc _ weeks t1 t2 (by omega),
    simulate_aging_getD total_open b1i b2i b3i wo wc _ weeks t1 t2 (by omega)]
  simp only [mkSnapshot]
  obtain ⟨hTeq, hb1⟩ := divergence_invariant (rate_bounds_1 ht1).1 (rate_bounds_1 ht1).2
    (rate_bounds_2 ht12).1 (rate_bounds_2 ht12).2 hwo hwc
    { bucket_1 := b1i, bucket_2 := b2i, bucket_3 := b3i } h1 h2 h3 w
  exact pct_target_1_mono hTeq hb1

/-! ### The linear scan of `find_required_closures` -/

lemma findFirstAux_eq_some {p : ℤ → Bool} {lo c : ℤ} {n : ℕ}
    (h : findFirstAux p lo n = some c) :
    p c = true ∧ lo ≤ c ∧ c < lo + n ∧ ∀ c', lo ≤ c' → c' < c → p c' = false := by
  induction n generalizing lo with
  | zero => simp [findFirstAux] at h
  | succ n ih =>
    rw [findFirstAux] at h
    by_cases hp : p lo = true
    · rw [if_pos hp] at h
      obtain rfl : lo = c := Option.some.inj h
      refine ⟨hp, le_refl _, by omega, ?_⟩
      intro c' h1 h2
      exact absurd h2 (not_lt.mpr h1)
    · rw [if_neg hp] at h
      rw [Bool.not_eq_true] at hp
      obtain ⟨hpc, hlo, hble, hall⟩ := ih h
      refine ⟨hpc, by omega, by omega, ?_⟩
      intro c' h1 h2
      rcases eq_or_lt_of_le h1 with rfl | hlt
      · exact hp
      · exact hall c' (by omega) h2

lemma findFirstAux_eq_none {p : ℤ → Bool} {lo : ℤ} {n : ℕ} :
    findFirstAux p lo n = none ↔ ∀ c, lo ≤ c → c < lo + n → p c = false := by
  induction n generalizing lo with
  | zero =>
    simp only [findFirstAux, Nat.cast_zero, add_zero, true_iff]
    exact fun c h1 h2 => absurd h2 (not_lt.mpr h1)
  | succ n ih =>
    rw [findFirstAux]
    by_cases hp : p lo = true
    · rw [if_pos hp]
      constructor
      · intro h
        exact absurd h (by simp)
      · intro hall
        have h2 := hall lo (le_refl _) (by omega)
        rw [hp] at h2
        exact absurd h2 (by simp)
    · rw [if_neg hp]
      rw [Bool.not_eq_true] at hp
      rw [ih]
      constructor
      · intro h c h1 h2
        rcases eq_or_lt_of_le h1 with rfl | hlt
        · exact hp
        · exact h c (by omega) (by omega)
      · intro h c h1 h2
        exact h c (by omega) (by omega)

/-- C1: if `find_required_closures` returns `c`, the OldestFirst run
with `weekly_closed = c` ends at or above `target_pct` while every
candidate in `[weekly_opened, c)` ends below it; it returns `none`
exactly when every candidate in `[weekly_opened, 200)` ends below
`target_pct`. -/
theorem c1_search_soundness (total_open b1c b2c b3c wo : ℤ) (tw : ℕ) (tpct : ℚ)
    (t1 t2 : ℤ) :
    (∀ c, find_required_closures total_open b1c b2c b3c wo tw tpct t1 t2 = some c →
      tpct ≤ search_final_pct total_open b1c b2c b3c wo tw t1 t2 c ∧
      wo ≤ c ∧ c < 200 ∧
      ∀ c', wo ≤ c' → c' < c →
        search_final_pct total_open b1c b2c b3c wo tw t1 t2 c' < tpct) ∧
    (find_required_closures total_open b1c b2c b3c wo tw tpct t1 t2 = none ↔
      ∀ c, wo ≤ c → c < 200 →
        search_final_pct total_open b1c b2c b3c wo tw t1 t2 c < tpct) := by
  constructor
  · intro c hc
    rw [find_required_closures] at hc
    by_cases hn : (200 - wo).toNat = 0
    · rw [hn] at hc
      simp [findFirstAux] at hc
    · obtain ⟨hpc, hlo, hlt, hall⟩ := findFirstAux_eq_some hc
      simp only [decide_eq_true_eq] at hpc
      refine ⟨hpc, hlo, by omega, ?_⟩
      intro c' h1 h2
      have := hall c' h1 h2
      simp only [decide_eq_false_iff_not, not_le] at this
      exact this
  · rw [find_required_closures, findFirstAux_eq_none]
    constructor
    · intro h c h1 h2
      have := h c h1 (by omega)
      simp only [decide_eq_false_iff_not, not_le] at this
      exact this
    · intro h c h1 h2
      simp only [decide_eq_false_iff_not, not_le]
      exact h c h1 (by omega)

/-- C6: every weekly transition first moves
`int(bucket_1 * min(1, 7/target_1_days))` items from bucket 1 to
bucket 2 and `int(bucket_2 * min(1, 7/(target_2_days-target_1_days)))`
items from bucket 2 to bucket 3 (truncated products), and only then
applies intake, closure and the clamp. -/
theorem c6_aging_amounts (t1 t2 wo wc : ℤ) (pol : ClosurePolicy) (init : Buckets) (n : ℕ) :
    stateAt (min 1 (7 / (t1 : ℚ))) (min 1 (7 / ((t2 - t1 : ℤ) : ℚ))) wo wc pol init (n + 1) =
      clampStep (closeStep pol wc (intakeStep wo
        { bucket_1 :=
            (stateAt (min 1 (7 / (t1 : ℚ))) (min 1 (7 / ((t2 - t1 : ℤ) : ℚ))) wo wc pol init
              n).bucket_1 -
            pyint (((stateAt (min 1 (7 / (t1 : ℚ))) (min 1 (7 / ((t2 - t1 : ℤ) : ℚ))) wo wc pol
              init n).bucket_1 : ℚ) * min 1 (7 / (t1 : ℚ)))
          bucket_2 :=
            (stateAt (min 1 (7 / (t1 : ℚ))) (min 1 (7 / ((t2 - t1 : ℤ) : ℚ))) wo wc pol init
              n).bucket_2 +
            pyint (((stateAt (min 1 (7 / (t1 : ℚ))) (min 1 (7 / ((t2 - t1 : ℤ) : ℚ))) wo wc pol
              init n).bucket_1 : ℚ) * min 1 (7 / (t1 : ℚ))) -
            pyint (((stateAt (min 1 (7 / (t1 : ℚ))) (min 1 (7 / ((t2 - t1 : ℤ) : ℚ))) wo wc pol
              init n).bucket_2 : ℚ) * min 1 (7 / ((t2 - t1 : ℤ) : ℚ)))
          bucket_3 :=
            (stateAt (min 1 (7 / (t1 : ℚ))) (min 1 (7 / ((t2 - t1 : ℤ) : ℚ))) wo wc pol init
              n).bucket_3 +
            pyint (((stateAt (min 1 (7 / (t1 : ℚ))) (min 1 (7 / ((t2 - t1 : ℤ) : ℚ))) wo wc pol
              init n).bucket_2 : ℚ) * min 1 (7 / ((t2 - t1 : ℤ) : ℚ))) })) :=
  rfl

/-- C9: the simulator's output does not depend on its `total_open`
argument, and each recorded snapshot's `total_open` field is the sum
of its three bucket fields. -/
theorem c9_total_open_independent (t t' b1i b2i b3i wo wc : ℤ) (pol : ClosurePolicy)
    (weeks : ℕ) (t1 t2 : ℤ) (w : ℕ) :
    simulate_aging t b1i b2i b3i wo wc pol weeks t1 t2 =
      simulate_aging t' b1i b2i b3i wo wc pol weeks t1 t2 ∧
    ((simulate_aging t b1i b2i b3i wo wc pol weeks t1 t2).getD w emptySnapshot).total_open =
      ((simulate_aging t b1i b2i b3i wo wc pol weeks t1 t2).getD w emptySnapshot).bucket_1 +
      ((simulate_aging t b1i b2i b3i wo wc pol weeks t1 t2).getD w emptySnapshot).bucket_2 +
      ((simulate_aging t b1i b2i b3i wo wc pol weeks t1 t2).getD w emptySnapshot).bucket_3 := by
  refine ⟨rfl, ?_⟩
  by_cases hw : w < weeks + 1
  · rw [simulate_aging_getD t b1i b2i b3i wo wc pol weeks t1 t2 hw]
    simp [mkSnapshot, Buckets.total]
  · have hlen := simulate_aging_length t b1i b2i b3i wo wc pol weeks t1 t2
    rw [List.getD_eq_getElem?_getD, List.getElem?_eq_none (by omega), Option.getD_none]
    simp [emptySnapshot]

/-! ### Concrete evaluations -/

lemma c7_rate_1 : min 1 (7 / ((50 : ℤ) : ℚ)) = 7 / 50 := by
  rw [min_eq_right] <;> norm_num

lemma c7_rate_2 : min 1 (7 / ((((100 : ℤ) - (50 : ℤ)) : ℤ) : ℚ)) = 7 / 50 := by
  rw [show ((((100 : ℤ) - (50 : ℤ)) : ℤ) : ℚ) = ((50 : ℤ) : ℚ) by norm_num]
  exact c7_rate_1

lemma c7_state_1 :
    stateAt (7 / 50) (7 / 50) 15 20 ClosurePolicy.OldestFirst
      { bucket_1 := 114, bucket_2 := 74, bucket_3 := 12 } 1 =
      { bucket_1 := 114, bucket_2 := 79, bucket_3 := 2 } := by
  have hp1 : pyint (((114 : ℤ) : ℚ) * (7 / 50)) = 15 := by
    rw [pyint_eq_floor (by norm_num)]
    norm_num [Int.floor_eq_iff]
  have hp2 : pyint (((74 : ℤ) : ℚ) * (7 / 50)) = 10 := by
    rw [pyint_eq_floor (by norm_num)]
    norm_num [Int.floor_eq_iff]
  have ha : agingStep (7 / 50) (7 / 50) { bucket_1 := 114, bucket_2 := 74, bucket_3 := 12 } =
      { bucket_1 := 99, bucket_2 := 79, bucket_3 := 22 } := by
    simp only [agingStep, hp1, hp2]
    decide
  simp only [stateAt, weekStep, ha]
  decide

/-- C7: with initial buckets `(114, 74, 12)`, thresholds 50/100 days,
intake 15, closures 20, OldestFirst and one simulated week, the week-0
snapshot reports `pct_meeting_target_1 = 57` and the week-1 snapshot
still has `bucket_1 = 114`. -/
theorem c7_concrete_scenario :
    ((simulate_aging 200 114 74 12 15 20 ClosurePolicy.OldestFirst 1 50 100).getD 0
        emptySnapshot).pct_meeting_target_1 = 57 ∧
    ((simulate_aging 200 114 74 12 15 20 ClosurePolicy.OldestFirst 1 50 100).getD 1
        emptySnapshot).bucket_1 = 114 := by
  rw [simulate_aging_getD 200 114 74 12 15 20 ClosurePolicy.OldestFirst 1 50 100
      (show (0 : ℕ) < 1 + 1 by omega),
    simulate_aging_getD 200 114 74 12 15 20 ClosurePolicy.OldestFirst 1 50 100
      (show (1 : ℕ) < 1 + 1 by omega),
    c7_rate_1, c7_rate_2, c7_state_1]
  constructor
  · show pct_target_1 { bucket_1 := 114, bucket_2 := 74, bucket_3 := 12 } = 57
    rw [pct_target_1, if_pos (by decide : (0 : ℤ) < Buckets.total
      { bucket_1 := 114, bucket_2 := 74, bucket_3 := 12 })]
    norm_num [Buckets.total]
  · rfl

lemma c10_mixed_close_1_eval :
    mixed_close_1 3 { bucket_1 := 2, bucket_2 := 2, bucket_3 := 0 } = 1 := by
  rw [mixed_close_1, pyint_eq_floor (by norm_num [Buckets.total])]
  norm_num [Buckets.total, Int.floor_eq_iff]

lemma c10_mixed_close_2_eval :
    mixed_close_2 3 { bucket_1 := 2, bucket_2 := 2, bucket_3 := 0 } = 1 := by
  rw [mixed_close_2, pyint_eq_floor (by norm_num [Buckets.total])]
  norm_num [Buckets.total, Int.floor_eq_iff]

lemma c10_close_eval :
    closeStep ClosurePolicy.Mixed 3 { bucket_1 := 2, bucket_2 := 2, bucket_3 := 0 } =
      { bucket_1 := 1, bucket_2 := 1, bucket_3 := 0 } := by
  have hmin : min (3 : ℤ) (2 + 2 + 0) = 3 := by decide
  simp only [closeStep, hmin, c10_mixed_close_1_eval, c10_mixed_close_2_eval]
  rw [if_pos (by decide : (0 : ℤ) < 2 + 2 + 0)]
  decide

lemma c10_rate_1 : min 1 (7 / ((1000 : ℤ) : ℚ)) = 7 / 1000 := by
  rw [min_eq_right] <;> norm_num

lemma c10_rate_2 : min 1 (7 / ((((2000 : ℤ) - (1000 : ℤ)) : ℤ) : ℚ)) = 7 / 1000 := by
  rw [show ((((2000 : ℤ) - (1000 : ℤ)) : ℤ) : ℚ) = ((1000 : ℤ) : ℚ) by norm_num]
  exact c10_rate_1

lemma c10_state_1 :
    stateAt (7 / 1000) (7 / 1000) 0 3 ClosurePolicy.Mixed
      { bucket_1 := 2, bucket_2 := 2, bucket_3 := 0 } 1 =
      { bucket_1 := 1, bucket_2 := 1, bucket_3 := 0 } := by
  have hp1 : pyint (((2 : ℤ) : ℚ) * (7 / 1000)) = 0 := by
    rw [pyint_eq_floor (by norm_num)]
    norm_num [Int.floor_eq_iff]
  have ha : agingStep (7 / 1000) (7 / 1000) { bucket_1 := 2, bucket_2 := 2, bucket_3 := 0 } =
      { bucket_1 := 2, bucket_2 := 2, bucket_3 := 0 } := by
    simp only [agingStep, hp1]
    decide
  have hi : intakeStep 0 { bucket_1 := 2, bucket_2 := 2, bucket_3 := 0 } =
      { bucket_1 := 2, bucket_2 := 2, bucket_3 := 0 } := by decide
  simp only [stateAt, weekStep, ha, hi, c10_close_eval]
  decide

/-- C10: under the Mixed policy a week never removes more than
`to_close = min(weekly_closed, current total)` items, and on buckets
`(2, 2, 0)` with `to_close = 3` it removes only 2, so the Mixed run on
that configuration breaks the OldestFirst/NewestFirst conservation
equation (which would predict a week-1 total of 1, not 2). -/
theorem c10_mixed_undershoot (wc : ℤ) (b : Buckets)
    (h1 : 0 ≤ b.bucket_1) (h2 : 0 ≤ b.bucket_2) (h3 : 0 ≤ b.bucket_3) (hwc : 0 ≤ wc) :
    (b.total - min wc b.total ≤ (closeStep ClosurePolicy.Mixed wc b).total ∧
      (closeStep ClosurePolicy.Mixed wc b).total ≤ b.total) ∧
    (closeStep ClosurePolicy.Mixed 3 { bucket_1 := 2, bucket_2 := 2, bucket_3 := 0 }).total = 2 ∧
    min 3 (Buckets.total { bucket_1 := 2, bucket_2 := 2, bucket_3 := 0 }) = 3 ∧
    ((simulate_aging 4 2 2 0 0 3 ClosurePolicy.Mixed 1 1000 2000).getD 1
        emptySnapshot).total_open = 2 ∧
    ((simulate_aging 4 2 2 0 0 3 ClosurePolicy.Mixed 1 1000 2000).getD 0
          emptySnapshot).total_open + 0 -
        min 3 (((simulate_aging 4 2 2 0 0 3 ClosurePolicy.Mixed 1 1000 2000).getD 0
          emptySnapshot).total_open + 0) = 1 := by
  obtain ⟨hc1, hc2, hc3, hlow, hhigh⟩ := closeStep_mixed_spec wc b h1 h2 h3 hwc
  refine ⟨⟨hlow, hhigh⟩, ?_, by decide, ?_, ?_⟩
  · rw [c10_close_eval]
    decide
  · rw [simulate_aging_getD 4 2 2 0 0 3 ClosurePolicy.Mixed 1 1000 2000
        (show (1 : ℕ) < 1 + 1 by omega),
      c10_rate_1, c10_rate_2, c10_state_1]
    decide
  · rw [simulate_aging_getD 4 2 2 0 0 3 ClosurePolicy.Mixed 1 1000 2000
        (show (0 : ℕ) < 1 + 1 by omega)]
    decide

lemma mixed_close_sum_le_tc {wc : ℤ} {b : Buckets}
    (h1 : 0 ≤ b.bucket_1) (h2 : 0 ≤ b.bucket_2) (h3 : 0 ≤ b.bucket_3) (hwc : 0 ≤ wc) :
    mixed_close_1 (min wc b.total) b + mixed_close_2 (min wc b.total) b ≤
      min wc b.total := by
  have hT0 : 0 ≤ b.total := by simp only [Buckets.total]; omega
  have htc0 : 0 ≤ min wc b.total := le_min hwc hT0
  by_cases hT : 0 < b.total
  · exact mixed_close_sum_le htc0 h1 h2 h3 hT
  · have htc : min wc b.total = 0 := by omega
    rw [htc]
    have e1 : mixed_close_1 0 b = 0 := by
      rw [mixed_close_1, show ((0 * b.bucket_1 : ℤ) : ℚ) = 0 by push_cast; ring, zero_div,
        pyint_eq_floor le_rfl]
      exact Int.floor_zero
    have e2 : mixed_close_2 0 b = 0 := by
      rw [mixed_close_2, show ((0 * b.bucket_2 : ℤ) : ℚ) = 0 by push_cast; ring, zero_div,
        pyint_eq_floor le_rfl]
      exact Int.floor_zero
    omega

/-- C8 refutation: there is no configuration with non-negative buckets
and closure rate on which the Mixed proportional rounding allocates
`close_1 + close_2` above `to_close` or on which some bucket is
negative before the final clamp. -/
theorem c8_no_mixed_overshoot :
    ¬ ∃ (wc : ℤ) (b : Buckets),
      (0 ≤ b.bucket_1 ∧ 0 ≤ b.bucket_2 ∧ 0 ≤ b.bucket_3 ∧ 0 ≤ wc) ∧
      (min wc b.total < mixed_close_1 (min wc b.total) b + mixed_close_2 (min wc b.total) b ∨
        (closeStep ClosurePolicy.Mixed wc b).bucket_1 < 0 ∨
        (closeStep ClosurePolicy.Mixed wc b).bucket_2 < 0 ∨
        (closeStep ClosurePolicy.Mixed wc b).bucket_3 < 0) := by
  rintro ⟨wc, b, ⟨h1, h2, h3, hwc⟩, hbad⟩
  obtain ⟨hc1, hc2, hc3, hlow, hhigh⟩ := closeStep_mixed_spec wc b h1 h2 h3 hwc
  have hsum := mixed_close_sum_le_tc h1 h2 h3 hwc
  rcases hbad with h | h | h | h <;> omega

/-- C8 amended: the Mixed proportional floor rounding never allocates
`close_1 + close_2` above `to_close` (so the forced remainder `close_3`
is never negative), every bucket stays non-negative already before the
final clamp, and the clamp is therefore a no-op under Mixed. -/
theorem c8_amended_mixed_clamp_noop (wc : ℤ) (b : Buckets)
    (h1 : 0 ≤ b.bucket_1) (h2 : 0 ≤ b.bucket_2) (h3 : 0 ≤ b.bucket_3) (hwc : 0 ≤ wc) :
    mixed_close_1 (min wc b.total) b + mixed_close_2 (min wc b.total) b ≤ min wc b.total ∧
    clampStep (closeStep ClosurePolicy.Mixed wc b) = closeStep ClosurePolicy.Mixed wc b := by
  obtain ⟨hc1, hc2, hc3, hlow, hhigh⟩ := closeStep_mixed_spec wc b h1 h2 h3 hwc
  exact ⟨mixed_close_sum_le_tc h1 h2 h3 hwc, clampStep_eq_self hc1 hc2 hc3⟩

/-! ### Witnesses -/

theorem c1_search_soundness_witness :
    (90 : ℚ) ≤ search_final_pct 0 0 0 0 0 0 7 14 0 :=
  ((c1_search_soundness 0 0 0 0 0 0 90 7 14).1 0 (by decide)).1

theorem c2_conservation_witness :
    ((simulate_aging 200 114 74 12 15 20 ClosurePolicy.OldestFirst 1 50 100).getD (0 + 1)
        emptySnapshot).total_open =
      ((simulate_aging 200 114 74 12 15 20 ClosurePolicy.OldestFirst 1 50 100).getD 0
          emptySnapshot).total_open + 15 -
        min 20 (((simulate_aging 200 114 74 12 15 20 ClosurePolicy.OldestFirst 1 50 100).getD 0
          emptySnapshot).total_open + 15) :=
  c2_conservation 200 114 74 12 15 20 50 100 ClosurePolicy.OldestFirst 1 0
    (by decide) (by decide) (by decide) (by decide) (by decide) (by decide) (by decide)
    (Or.inl rfl) (by decide)

theorem c3_bucket_nonneg_witness :
    0 ≤ (mkSnapshot 0 { bucket_1 := 114, bucket_2 := 74, bucket_3 := 12 }).bucket_1 ∧
    0 ≤ (mkSnapshot 0 { bucket_1 := 114, bucket_2 := 74, bucket_3 := 12 }).bucket_2 ∧
    0 ≤ (mkSnapshot 0 { bucket_1 := 114, bucket_2 := 74, bucket_3 := 12 }).bucket_3 :=
  c3_bucket_nonneg 200 114 74 12 15 20 50 100 ClosurePolicy.OldestFirst 1
    (by decide) (by decide) (by decide) (by decide) (by decide) (by decide) (by decide)
    (by simp only [simulate_aging, List.mem_map]
        exact ⟨0, List.mem_range.mpr (by omega), rfl⟩)

theorem c4_pct_bounds_witness :
    (0 < (mkSnapshot 0 { bucket_1 := 114, bucket_2 := 74, bucket_3 := 12 }).total_open →
      0 ≤ (mkSnapshot 0 { bucket_1 := 114, bucket_2 := 74, bucket_3 := 12 }).pct_meeting_target_1 ∧
      (mkSnapshot 0 { bucket_1 := 114, bucket_2 := 74, bucket_3 := 12 }).pct_meeting_target_1 ≤
        (mkSnapshot 0 { bucket_1 := 114, bucket_2 := 74, bucket_3 := 12 }).pct_meeting_target_2 ∧
      (mkSnapshot 0 { bucket_1 := 114, bucket_2 := 74, bucket_3 := 12 }).pct_meeting_target_2 ≤
        100) ∧
    ((mkSnapshot 0 { bucket_1 := 114, bucket_2 := 74, bucket_3 := 12 }).total_open = 0 →
      (mkSnapshot 0 { bucket_1 := 114, bucket_2 := 74, bucket_3 := 12 }).pct_meeting_target_1 =
        100 ∧
      (mkSnapshot 0 { bucket_1 := 114, bucket_2 := 74, bucket_3 := 12 }).pct_meeting_target_2 =
        100) :=
  c4_pct_bounds 200 114 74 12 15 20 50 100 ClosurePolicy.OldestFirst 1
    (by decide) (by decide) (by decide) (by decide) (by decide) (by decide) (by decide)
    (by simp only [simulate_aging, List.mem_map]
        exact ⟨0, List.mem_range.mpr (by omega), rfl⟩)

theorem c5_policy_divergence_witness :
    ((simulate_aging 200 114 74 12 15 20 ClosurePolicy.NewestFirst 1 50 100).getD 0
        emptySnapshot).pct_meeting_target_1 ≤
      ((simulate_aging 200 114 74 12 15 20 ClosurePolicy.OldestFirst 1 50 100).getD 0
        emptySnapshot).pct_meeting_target_1 :=
  c5_policy_divergence 200 114 74 12 15 20 50 100 1 0
    (by decide) (by decide) (by decide) (by decide) (by decide) (by decide) (by decide)
    (by omega)

theorem c10_mixed_undershoot_witness :
    ((Buckets.total { bucket_1 := 2, bucket_2 := 2, bucket_3 := 0 }) -
        min 3 (Buckets.total { bucket_1 := 2, bucket_2 := 2, bucket_3 := 0 }) ≤
        (closeStep ClosurePolicy.Mixed 3 { bucket_1 := 2, bucket_2 := 2, bucket_3 := 0 }).total ∧
      (closeStep ClosurePolicy.Mixed 3 { bucket_1 := 2, bucket_2 := 2, bucket_3 := 0 }).total ≤
        Buckets.total { bucket_1 := 2, bucket_2 := 2, bucket_3 := 0 }) ∧
    (closeStep ClosurePolicy.Mixed 3 { bucket_1 := 2, bucket_2 := 2, bucket_3 := 0 }).total = 2 ∧
    min 3 (Buckets.total { bucket_1 := 2, bucket_2 := 2, bucket_3 := 0 }) = 3 ∧
    ((simulate_aging 4 2 2 0 0 3 ClosurePolicy.Mixed 1 1000 2000).getD 1
        emptySnapshot).total_open = 2 ∧
    ((simulate_aging 4 2 2 0 0 3 ClosurePolicy.Mixed 1 1000 2000).getD 0
          emptySnapshot).total_open + 0 -
        min 3 (((simulate_aging 4 2 2 0 0 3 ClosurePolicy.Mixed 1 1000 2000).getD 0
          emptySnapshot).total_open + 0) = 1 :=
  c10_mixed_undershoot 3 { bucket_1 := 2, bucket_2 := 2, bucket_3 := 0 }
    (by decide) (by decide) (by decide) (by decide)

theorem c8_amended_mixed_clamp_noop_witness :
    mixed_close_1 (min 3 (Buckets.total { bucket_1 := 2, bucket_2 := 2, bucket_3 := 0 }))
        { bucket_1 := 2, bucket_2 := 2, bucket_3 := 0 } +
      mixed_close_2 (min 3 (Buckets.total { bucket_1 := 2, bucket_2 := 2, bucket_3 := 0 }))
        { bucket_1 := 2, bucket_2 := 2, bucket_3 := 0 } ≤
      min 3 (Buckets.total { bucket_1 := 2, bucket_2 := 2, bucket_3 := 0 }) ∧
    clampStep (closeStep ClosurePolicy.Mixed 3 { bucket_1 := 2, bucket_2 := 2, bucket_3 := 0 }) =
      closeStep ClosurePolicy.Mixed 3 { bucket_1 := 2, bucket_2 := 2, bucket_3 := 0 } :=
  c8_amended_mixed_clamp_noop 3 { bucket_1 := 2, bucket_2 := 2, bucket_3 := 0 }
    (by decide) (by decide) (by decide) (by decide)
